import Mathlib

/-!
# Verification of the fingerprint_poc signal pipeline

Shallow embedding of the DeviceHash SDK (`src/lib/deviceHash.ts`, both the
12-signal and the 11-signal version) together with the zustand device stores
(`src/store/deviceStore.ts` and the stable-signal store variant) and the
comparison-table logic of the `UserIdentity` components.

Browser/ambient state (navigator, screen, matchMedia, localStorage,
crypto.subtle, WebGL) is made explicit as an `Env` record; each extractor is a
pure function of the relevant part of that record, exactly mirroring the
TypeScript control flow.  Machine integers are `Int`/`Nat` with explicit
two's-complement wrapping where the source relies on JavaScript's 32-bit
coercions; the screen-ratio division is modelled over `ℚ`.
-/

namespace FingerprintPoc

/-- JavaScript `ToInt32` coercion: wrap an integer into `[-2^31, 2^31)`.
Used by the source's `hash = hash & hash` and `hash << 5` operations. -/
def toInt32 (x : Int) : Int := (x + 2 ^ 31) % 2 ^ 32 - 2 ^ 31

/-- Lower-case hexadecimal digit, as produced by JS `Number.toString(16)`. -/
def hexDigitChar (n : Nat) : Char :=
  if n < 10 then Char.ofNat (48 + n) else Char.ofNat (87 + n)

/-- Digits (most significant first) of `n` in base 16; empty for `0`. -/
def natToHexAux (n : Nat) : List Char :=
  if h : n = 0 then []
  else natToHexAux (n / 16) ++ [hexDigitChar (n % 16)]
decreasing_by exact Nat.div_lt_self (Nat.pos_of_ne_zero h) (by norm_num)

/-- JS `n.toString(16)` for a non-negative integer `n`. -/
def natToHex (n : Nat) : String :=
  if n = 0 then "0" else String.mk (natToHexAux n)

/-- JS `s.padStart(2, '0')`. -/
def padStart2 (s : String) : String :=
  if 2 ≤ s.length then s
  else String.mk (List.replicate (2 - s.length) '0') ++ s

/-- JS `String(b)` for a boolean. -/
def jsStringOfBool (b : Bool) : String := if b then "true" else "false"

/-- `listPrefixOf p l` decides whether `p` is a prefix of `l`. -/
def listPrefixOf : List Char → List Char → Bool
  | [], _ => true
  | _ :: _, [] => false
  | a :: as, b :: bs => a == b && listPrefixOf as bs

/-- `listContains l sub` decides whether `sub` occurs contiguously in `l`. -/
def listContains : List Char → List Char → Bool
  | l, sub =>
    listPrefixOf sub l ||
      (match l with
       | [] => false
       | _ :: t => listContains t sub)

/-- JS `s.includes(sub)` (substring containment). -/
def strIncludes (s sub : String) : Bool := listContains s.data sub.data

/-- JS `s.startsWith(p)`. -/
def jsStartsWith (s p : String) : Bool := listPrefixOf p.data s.data

/-- JS `s.toLowerCase()` (`String.toLower`), written over the character
list. -/
def jsToLower (s : String) : String := String.mk (s.data.map Char.toLower)

/-! ## `normalize` (deviceHash.ts, identical in both versions) -/

/-- The static timezone alias table of `normalize`. -/
def tzAlias : List (String × String) :=
  [("Asia/Kolkata", "Asia/Calcutta"), ("Asia/Kathmandu", "Asia/Katmandu"),
   ("America/Montreal", "America/Toronto"), ("Europe/Kyiv", "Europe/Kiev")]

/-- `normalize(type, data)` from deviceHash.ts.  `none` models JS `null`;
`if (!data)` is true exactly for `null` and the empty string. -/
def normalize (type : String) (data : Option String) : String :=
  match data with
  | none => "UNKNOWN"
  | some d =>
    if d = "" then "UNKNOWN"
    else if type = "timezone" then (tzAlias.lookup d).getD d
    else if type = "platform" then
      if jsStartsWith d "Win" then "WINDOWS"
      else if jsStartsWith d "Mac" then "MAC"
      else if jsStartsWith d "Linux" then "LINUX"
      else if strIncludes d "iPhone" || strIncludes d "iPad" then "IOS"
      else if strIncludes d "Android" then "ANDROID"
      else "OTHER"
    else d

/-! ## Signal extractors

Ambient browser state is passed explicitly; each function mirrors the body of
the TypeScript extractor of the same name. -/

/-- The WebGL state `getGPUVendor` reads: `getParameter` results (JS `null`
is modelled as `none`, folded to `""` by the source's `|| ""`), and the
optional `WEBGL_debug_renderer_info` extension. -/
structure WebGLContext where
  vendorParam : Option String
  rendererParam : Option String
  debugInfo : Bool
  unmaskedParam : Option String
deriving DecidableEq

/-- Outcome of the canvas/WebGL setup inside `getGPUVendor`'s `try`:
an exception, no context, or a live context. -/
inductive GPUEnv
  | throws
  | noContext
  | ctx (c : WebGLContext)
deriving DecidableEq

/-- `getGPUVendor()` from deviceHash.ts (identical in both versions). -/
def getGPUVendor : GPUEnv → String
  | .throws => "ERROR"
  | .noContext => "NO_WEBGL"
  | .ctx c =>
    let renderer := jsToLower (c.rendererParam.getD "")
    let vendor := jsToLower (c.vendorParam.getD "")
    let unmasked := if c.debugInfo then jsToLower (c.unmaskedParam.getD "") else ""
    let combined := vendor ++ " " ++ renderer ++ " " ++ unmasked
    if strIncludes combined "nvidia" || strIncludes combined "geforce" then "NVIDIA"
    else if strIncludes combined "amd" || strIncludes combined "radeon" then "AMD"
    else if strIncludes combined "intel" then "INTEL"
    else if strIncludes combined "apple" then "APPLE"
    else if strIncludes combined "qualcomm" || strIncludes combined "adreno" then "QUALCOMM"
    else if strIncludes combined "arm" || strIncludes combined "mali" then "ARM"
    else "OTHER"

/-- `getCPUBucket()`; `cores` is `navigator.hardwareConcurrency || 0`. -/
def getCPUBucket (cores : Nat) : String :=
  if cores = 0 then "UNKNOWN"
  else if cores ≤ 2 then "LOW_2"
  else if cores ≤ 4 then "MID_4"
  else if cores ≤ 8 then "HIGH_8"
  else "ULTRA_8+"

/-- `const ratio = Math.max(w, h) / Math.min(w, h)` of `getScreenRatio`,
modelled as the exact rational quotient. -/
def screenRatioValue (w h : Nat) : ℚ := mkRat (max w h) (min w h)

/-- `getScreenRatio()`.  The JS float division is modelled over `ℚ`.  When
`min w h = 0` the JS division yields `Infinity`/`NaN`, every `<` comparison
is false and the source returns `"21:9+"`; that degenerate case is made
explicit here because `mkRat x 0 = 0` would otherwise disagree with the
IEEE semantics. -/
def getScreenRatio (w h : Nat) : String :=
  if min w h = 0 then "21:9+"
  else
    if screenRatioValue w h < mkRat 14 10 then "4:3"
    else if screenRatioValue w h < mkRat 16 10 then "3:2"
    else if screenRatioValue w h < mkRat 18 10 then "16:10"
    else if screenRatioValue w h < 2 then "16:9"
    else if screenRatioValue w h < mkRat 22 10 then "19.5:9"
    else "21:9+"

/-- `getTouchSupport()`; `maxTouch` is `navigator.maxTouchPoints || 0`. -/
def getTouchSupport (maxTouch : Nat) : String :=
  if maxTouch = 0 then "NONE"
  else if maxTouch ≤ 2 then "BASIC"
  else if maxTouch ≤ 5 then "MULTI"
  else "FULL"

/-- `getHoverCapability()`: the two `matchMedia` results. -/
def getHoverCapability (hover pointer : Bool) : String :=
  if hover && pointer then "MOUSE"
  else if !hover && !pointer then "TOUCH"
  else "HYBRID"

/-- `getPDFViewer()`: `navigator.pdfViewerEnabled ?? true`. -/
def getPDFViewer (pdfViewerEnabled : Option Bool) : Bool :=
  pdfViewerEnabled.getD true

/-- `getAvailableScreen()` (11-signal version only; collected but excluded
from the master string). -/
def getAvailableScreen (availH : Nat) : String :=
  if availH < 600 then "S"
  else if availH < 800 then "M"
  else if availH < 1000 then "L"
  else if availH < 1200 then "XL"
  else "XXL"

/-! ## Digest -/

/-- The rolling fallback hash loop of `sha256`:
`hash = ((hash << 5) - hash) + charCode; hash = hash & hash`.
`hash << 5` coerces the (already int32) accumulator through `ToInt32` after
the shift, and `hash & hash` coerces the float sum back to int32.  Strings
are modelled as their character sequences (`charCodeAt` agrees with the code
point on the BMP strings this program hashes). -/
def fallbackHash (message : String) : Int :=
  message.data.foldl
    (fun hash c => toInt32 (toInt32 (hash * 32) - hash + (c.toNat : Int))) 0

/-- `sha256(message)` from deviceHash.ts.  The ambient
`crypto.subtle.digest('SHA-256', ·)` is an external browser primitive,
modelled as an oracle returning the digest's byte array; `none` means the
crypto API is unavailable or threw, in which case the catch-all falls through
to the rolling hash, returned as `Math.abs(hash).toString(16)`. -/
def sha256 (subtle : Option (String → List Nat)) (message : String) : String :=
  match subtle with
  | some digest =>
    String.join ((digest message).map fun b => padStart2 (natToHex b))
  | none => natToHex (fallbackHash message).natAbs

/-! ## Ambient browser environment

One record bundling everything the two `generateProfile` versions read from
the browser.  `blacklistRaw` is the result of
`localStorage.getItem("DH_BLACKLIST")`: `.error ()` models the read throwing
(the source catches and proceeds), `.ok none` models JS `null`. -/

structure Env where
  blacklistRaw : Except Unit (Option String)
  gpu : GPUEnv
  hardwareConcurrency : Nat
  screenW : Nat
  screenH : Nat
  availH : Nat
  colorDepth : Nat
  maxTouchPoints : Nat
  hdrMatches : Bool
  reducedMotionMatches : Bool
  hoverMatches : Bool
  pointerFineMatches : Bool
  pdfViewerEnabled : Option Bool
  mathFP : String
  tzOffset : Int
  platformRaw : String
  tzName : String
  subtle : Option (String → List Nat)

/-- The blacklist gate of `generateProfile`:
`localStorage.getItem(config.blockedStorageKey) === "true"`.  A throwing
read is caught and generation proceeds. -/
def isBlacklisted (r : Except Unit (Option String)) : Bool :=
  match r with
  | .ok (some s) => s = "true"
  | _ => false

/-- `DeviceAnchors` (stable-signal store variant). -/
structure DeviceAnchors where
  gpu : String
  tz : String
  platform : String
  fontsHash : String
deriving DecidableEq

/-- The profile object literally constructed by both `generateProfile`
versions: `{ master_id, confidence_score, wallet_address, meta }`. -/
structure DeviceProfile where
  master_id : String
  confidence_score : String
  wallet_address : String
  meta : DeviceAnchors
deriving DecidableEq

/-- `generateProfile()` of the 12-signal version of deviceHash.ts.
`env.mathFP` stands for `getMathFingerprint()`, whose value is a property of
the host JS engine's floating-point library and therefore ambient. -/
def generateProfile12 (env : Env) : Option DeviceProfile :=
  if isBlacklisted env.blacklistRaw then none
  else
    let gpuVendor := getGPUVendor env.gpu
    let cpuBucket := getCPUBucket env.hardwareConcurrency
    let screenRatio := getScreenRatio env.screenW env.screenH
    let colorDepth := env.colorDepth
    let touchSupport := getTouchSupport env.maxTouchPoints
    let hoverType := getHoverCapability env.hoverMatches env.pointerFineMatches
    let hdrSupport := env.hdrMatches
    let reducedMotion := env.reducedMotionMatches
    let pdfViewer := getPDFViewer env.pdfViewerEnabled
    let mathFingerprint := env.mathFP
    let tzOffset := env.tzOffset
    let platform := normalize "platform" (some env.platformRaw)
    let masterString := String.intercalate "||"
      [gpuVendor, cpuBucket, screenRatio, toString colorDepth, touchSupport,
       hoverType, jsStringOfBool hdrSupport, jsStringOfBool reducedMotion,
       jsStringOfBool pdfViewer, mathFingerprint, toString tzOffset, platform]
    let masterID := sha256 env.subtle masterString
    let timezone := normalize "timezone" (some env.tzName)
    some
      { master_id := masterID
        confidence_score := "0.95"
        wallet_address := "none"
        meta :=
          { gpu := gpuVendor, tz := timezone, platform := platform
            fontsHash := "CPU:" ++ cpuBucket ++ "|SCR:" ++ screenRatio } }

/-- `generateProfile()` of the 11-signal version (no math fingerprint;
`availScreen` is collected into the signal object but excluded from the
master string; the anchors label the ratio part `RATIO:`). -/
def generateProfile11 (env : Env) : Option DeviceProfile :=
  if isBlacklisted env.blacklistRaw then none
  else
    let gpuVendor := getGPUVendor env.gpu
    let cpuBucket := getCPUBucket env.hardwareConcurrency
    let screenRatio := getScreenRatio env.screenW env.screenH
    let availScreen := getAvailableScreen env.availH
    let colorDepth := env.colorDepth
    let touchSupport := getTouchSupport env.maxTouchPoints
    let hoverType := getHoverCapability env.hoverMatches env.pointerFineMatches
    let hdrSupport := env.hdrMatches
    let reducedMotion := env.reducedMotionMatches
    let pdfViewer := getPDFViewer env.pdfViewerEnabled
    let tzOffset := env.tzOffset
    let platform := normalize "platform" (some env.platformRaw)
    let _ := availScreen
    let masterString := String.intercalate "||"
      [gpuVendor, cpuBucket, screenRatio, toString colorDepth, touchSupport,
       hoverType, jsStringOfBool hdrSupport, jsStringOfBool reducedMotion,
       jsStringOfBool pdfViewer, toString tzOffset, platform]
    let masterID := sha256 env.subtle masterString
    let timezone := normalize "timezone" (some env.tzName)
    some
      { master_id := masterID
        confidence_score := "0.95"
        wallet_address := "none"
        meta :=
          { gpu := gpuVendor, tz := timezone, platform := platform
            fontsHash := "CPU:" ++ cpuBucket ++ "|RATIO:" ++ screenRatio } }

/-! ## Zustand device stores

Two variants coexist in the repository.  `RawStore` is `deviceStore.ts`
(generic `fingerprint` record, optional wallet address); `StableStore` is the
variant paired with the stable-signal deviceHash versions (it additionally
overwrites `confidence_score` with `"1.00"` when a wallet attaches). -/

/-- JS values as they occur in the generic `fingerprint` record and in
parsed comparison JSON.  `obj j` carries the canonical `JSON.stringify`
serialization of a non-primitive value. -/
inductive JSValue
  | str (s : String)
  | num (n : Int)
  | bool (b : Bool)
  | null
  | undef
  | obj (json : String)
deriving DecidableEq

/-- `deviceStore.ts` profile: `{ master_id, fingerprint, wallet_address? }`. -/
structure RawProfile where
  master_id : String
  fingerprint : List (String × JSValue)
  wallet_address : Option String
deriving DecidableEq

/-- `deviceStore.ts` state. -/
structure RawStoreState where
  profile : Option RawProfile
  isLoading : Bool
  error : Option String
deriving DecidableEq

/-- `setWalletAddress` of `deviceStore.ts`: spread the old profile and set
`wallet_address`; keep `null` when no profile exists. -/
def RawStoreState.setWalletAddress (address : String) (s : RawStoreState) :
    RawStoreState :=
  { s with
    profile := s.profile.map fun p => { p with wallet_address := some address } }

/-- Stable-signal store profile:
`{ master_id, instance_id, confidence_score, wallet_address, meta }`. -/
structure StableProfile where
  master_id : String
  instance_id : String
  confidence_score : String
  wallet_address : String
  meta : DeviceAnchors
deriving DecidableEq

/-- Stable-signal store state. -/
structure StableStoreState where
  profile : Option StableProfile
  isLoading : Bool
  error : Option String
deriving DecidableEq

/-- `setWalletAddress` of the stable-signal store variant: spread the old
profile, set `wallet_address` and overwrite `confidence_score` with
`'1.00'`; keep `null` when no profile exists. -/
def StableStoreState.setWalletAddress (address : String) (s : StableStoreState) :
    StableStoreState :=
  { s with
    profile := s.profile.map fun p =>
      { p with wallet_address := address, confidence_score := "1.00" } }

/-! ## Comparison tables (`UserIdentity` components)

`compareRows` models the generic table (raw-signal variant): one row per
`Object.entries(fingerprint)` entry, compared against the parsed import by
exact string equality after serialization.  `metricsStatuses` models the
fixed 11-row metrics table of the stable-signal variant. -/

/-- Row status: no import parsed yet (`compareData === null`), `MATCH`, or
`DIFF`. -/
inductive RowStatus
  | noData
  | matched
  | diff
deriving DecidableEq

/-- `valStr` of the generic table:
`typeof rawVal === 'object' ? JSON.stringify(rawVal) : String(rawVal)`
(`typeof null === 'object'` and `JSON.stringify(null) = "null"`). -/
def serializeCurrent : JSValue → String
  | .str s => s
  | .num n => toString n
  | .bool b => jsStringOfBool b
  | .null => "null"
  | .undef => "undefined"
  | .obj j => j

/-- `compareStr` of the generic table: an absent key (JS `undefined`) falls
to `String(compareVal ?? '-') = "-"`. -/
def serializeCompare : Option JSValue → String
  | none => "-"
  | some .undef => "-"
  | some (.str s) => s
  | some (.num n) => toString n
  | some (.bool b) => jsStringOfBool b
  | some .null => "null"
  | some (.obj j) => j

/-- The generic comparison table: `isMatch = !hasCompare || valStr === compareStr`,
rendered as a status per field of the current fingerprint. -/
def compareRows (items : List (String × JSValue))
    (compareData : Option (List (String × JSValue))) :
    List (String × RowStatus) :=
  items.map fun kv =>
    (kv.1,
      match compareData with
      | none => RowStatus.noData
      | some b =>
        if serializeCurrent kv.2 = serializeCompare (b.lookup kv.1) then
          RowStatus.matched
        else RowStatus.diff)

/-- The 11 signals rendered by the stable-signal `UserIdentity`. -/
structure SignalData where
  gpuVendor : String
  cpuBucket : String
  screenRatio : String
  colorDepth : Int
  touchSupport : String
  hoverType : String
  hdrSupport : Bool
  reducedMotion : Bool
  pdfViewer : Bool
  tzOffset : Int
  platform : String
deriving DecidableEq

/-- The imported signal set after `JSON.parse`: any field may be absent. -/
structure SignalDataOpt where
  gpuVendor : Option String
  cpuBucket : Option String
  screenRatio : Option String
  colorDepth : Option Int
  touchSupport : Option String
  hoverType : Option String
  hdrSupport : Option Bool
  reducedMotion : Option Bool
  pdfViewer : Option Bool
  tzOffset : Option Int
  platform : Option String
deriving DecidableEq

/-- `String(x || '')`: JS `||` replaces both `undefined` and the falsy `0`
by `''`. -/
def jsNumOrEmpty : Option Int → String
  | none => ""
  | some n => if n = 0 then "" else toString n

/-- `String(x ?? '')`: only `undefined` is replaced. -/
def jsBoolOrEmpty : Option Bool → String
  | none => ""
  | some b => jsStringOfBool b

/-- One metrics row: `isMatch = !hasCompare || m.current === m.compare`. -/
def metricStatus (b : Bool) : RowStatus :=
  if b then RowStatus.matched else RowStatus.diff

/-- Status column of the 11-row metrics table of the stable-signal
`UserIdentity`, in display order. -/
def metricsStatuses (s : SignalData) (c : Option SignalDataOpt) :
    List RowStatus :=
  match c with
  | none => List.replicate 11 RowStatus.noData
  | some cd =>
    [metricStatus (some s.gpuVendor = cd.gpuVendor),
     metricStatus (some s.cpuBucket = cd.cpuBucket),
     metricStatus (some s.screenRatio = cd.screenRatio),
     metricStatus (toString s.colorDepth = jsNumOrEmpty cd.colorDepth),
     metricStatus (some s.touchSupport = cd.touchSupport),
     metricStatus (some s.hoverType = cd.hoverType),
     metricStatus (jsStringOfBool s.hdrSupport = jsBoolOrEmpty cd.hdrSupport),
     metricStatus (jsStringOfBool s.reducedMotion = jsBoolOrEmpty cd.reducedMotion),
     metricStatus (jsStringOfBool s.pdfViewer = jsBoolOrEmpty cd.pdfViewer),
     metricStatus (toString s.tzOffset = jsNumOrEmpty cd.tzOffset),
     metricStatus (some s.platform = cd.platform)]

/-- The imported record produced by pasting a signal set's own JSON:
every field present. -/
def SignalData.toOpt (s : SignalData) : SignalDataOpt :=
  { gpuVendor := some s.gpuVendor, cpuBucket := some s.cpuBucket
    screenRatio := some s.screenRatio, colorDepth := some s.colorDepth
    touchSupport := some s.touchSupport, hoverType := some s.hoverType
    hdrSupport := some s.hdrSupport, reducedMotion := some s.reducedMotion
    pdfViewer := some s.pdfViewer, tzOffset := some s.tzOffset
    platform := some s.platform }

/-! ## Hexadecimal well-formedness (spec-side vocabulary) -/

/-- A lower-case hexadecimal digit character (`0`–`9`, `a`–`f`). -/
def isHexChar (ch : Char) : Bool :=
  (48 ≤ ch.toNat && ch.toNat ≤ 57) || (97 ≤ ch.toNat && ch.toNat ≤ 102)

/-- Every character of the string is a lower-case hexadecimal digit. -/
def isHexString (s : String) : Bool := s.data.all isHexChar

/-! ## Concrete environments and states (used by witnesses and
counterexamples) -/

/-- The end-to-end scenario of the spec: 4 logical cores, the synthetic
NVIDIA ANGLE renderer string, a 1920×1080 screen, platform `Win32`,
timezone `Asia/Kolkata`; the crypto API is unavailable, so the digest takes
the fallback path. -/
def envScenario : Env :=
  { blacklistRaw := .ok none
    gpu := .ctx
      { vendorParam := none
        rendererParam := some "ANGLE (NVIDIA GeForce RTX 3080 Direct3D11 vs_5_0 ps_5_0)"
        debugInfo := false
        unmaskedParam := none }
    hardwareConcurrency := 4
    screenW := 1920
    screenH := 1080
    availH := 1040
    colorDepth := 24
    maxTouchPoints := 0
    hdrMatches := false
    reducedMotionMatches := false
    hoverMatches := true
    pointerFineMatches := true
    pdfViewerEnabled := some true
    mathFP := "MF"
    tzOffset := -330
    platformRaw := "Win32"
    tzName := "Asia/Kolkata"
    subtle := none }

/-- The scenario environment with the persisted block flag reading `"true"`. -/
def envBlacklisted : Env := { envScenario with blacklistRaw := .ok (some "true") }

/-- The scenario environment where reading the block flag throws. -/
def envStorageThrows : Env := { envScenario with blacklistRaw := .error () }

/-- The scenario environment where the WebGL setup throws, so the GPU
signal degrades to `"ERROR"`. -/
def envGpuThrows : Env := { envScenario with gpu := .throws }

/-- The profile produced in the scenario environment (12-signal version). -/
def profScenario : DeviceProfile :=
  (generateProfile12 envScenario).getD
    { master_id := "", confidence_score := "", wallet_address := ""
      meta := { gpu := "", tz := "", platform := "", fontsHash := "" } }

/-- A concrete stable-store state holding a profile. -/
def stableState0 : StableStoreState :=
  { profile := some
      { master_id := "abc123", instance_id := "i1", confidence_score := "0.95"
        wallet_address := "none"
        meta := { gpu := "NVIDIA", tz := "Asia/Calcutta", platform := "WINDOWS"
                  fontsHash := "CPU:MID_4|SCR:16:10" } }
    isLoading := false
    error := none }

/-- A concrete raw-store state holding a profile. -/
def rawState0 : RawStoreState :=
  { profile := some
      { master_id := "abc123"
        fingerprint := [("gpuVendor", JSValue.str "NVIDIA"), ("colorDepth", JSValue.num 24)]
        wallet_address := none }
    isLoading := false
    error := none }

/-- A concrete 11-signal set whose timezone offset is `0` (UTC). -/
def signalsUTC : SignalData :=
  { gpuVendor := "NVIDIA", cpuBucket := "MID_4", screenRatio := "16:10"
    colorDepth := 24, touchSupport := "NONE", hoverType := "MOUSE"
    hdrSupport := false, reducedMotion := false, pdfViewer := true
    tzOffset := 0, platform := "WINDOWS" }

/-- The same signal set at UTC+5:30 (`tzOffset = -330`). -/
def signalsIST : SignalData := { signalsUTC with tzOffset := -330 }

/-- A concrete generic fingerprint record with unique keys. -/
def items0 : List (String × JSValue) :=
  [("gpuVendor", JSValue.str "NVIDIA"), ("colorDepth", JSValue.num 24),
   ("hdrSupport", JSValue.bool false)]

/-! ## Claims -/

/-- Two prefixes of the same list agree on their first character. -/
theorem listPrefixOf_head_eq {a b : Char} {as bs l : List Char}
    (h1 : listPrefixOf (a :: as) l = true)
    (h2 : listPrefixOf (b :: bs) l = true) : a = b := by
  cases l with
  | nil => simp [listPrefixOf] at h1
  | cons c t =>
    simp only [listPrefixOf, Bool.and_eq_true, beq_iff_eq] at h1 h2
    rw [h1.1, h2.1]

/-- A string cannot start with two prefixes whose first characters differ. -/
theorem jsStartsWith_disjoint {s p q : String} {a b : Char} {as bs : List Char}
    (hp : p.data = a :: as) (hq : q.data = b :: bs) (hab : a ≠ b)
    (h : jsStartsWith s p = true) : jsStartsWith s q = false := by
  unfold jsStartsWith at h ⊢
  rw [hp] at h
  rw [hq]
  by_contra hc
  rw [Bool.not_eq_false] at hc
  exact hab (listPrefixOf_head_eq h hc)

/-- C9: attaching an externally supplied wallet address to an
already-computed profile via `setWalletAddress` never alters `master_id`,
in either store variant: for every stored state and every address string,
the profile's `master_id` after the call equals the one before (and a `none`
profile stays `none`). -/
theorem setWalletAddress_preserves_master_id :
    (∀ (s : RawStoreState) (a : String),
      ((s.setWalletAddress a).profile).map RawProfile.master_id
        = s.profile.map RawProfile.master_id) ∧
    (∀ (s : StableStoreState) (a : String),
      ((s.setWalletAddress a).profile).map StableProfile.master_id
        = s.profile.map StableProfile.master_id) := by
  constructor <;> intro s a <;> cases h : s.profile <;>
    simp [RawStoreState.setWalletAddress, StableStoreState.setWalletAddress, h]

/-- C10: in the stable-signal store variant, `setWalletAddress` on a
non-null profile sets `wallet_address` and overwrites `confidence_score`
with `"1.00"`, leaving `master_id`, `instance_id`, `meta` and the rest of
the store state unchanged; on a null profile the store's profile stays
null. -/
theorem stableStore_setWalletAddress_spec :
    (∀ (s : StableStoreState) (a : String),
      s.profile = none → (s.setWalletAddress a).profile = none) ∧
    (∀ (s : StableStoreState) (a : String) (p : StableProfile),
      s.profile = some p →
        (s.setWalletAddress a).profile =
          some { master_id := p.master_id, instance_id := p.instance_id
                 confidence_score := "1.00", wallet_address := a
                 meta := p.meta } ∧
        (s.setWalletAddress a).isLoading = s.isLoading ∧
        (s.setWalletAddress a).error = s.error) := by
  constructor
  · intro s a h
    simp [StableStoreState.setWalletAddress, h]
  · intro s a p h
    refine ⟨?_, rfl, rfl⟩
    simp [StableStoreState.setWalletAddress, h]

/-- Witness for C10 at a concrete store state and address. -/
theorem stableStore_setWalletAddress_spec_witness :
    ({ profile := none, isLoading := true, error := none
       : StableStoreState }.setWalletAddress "0xdead").profile = none ∧
    stableState0.profile = some
      { master_id := "abc123", instance_id := "i1", confidence_score := "0.95"
        wallet_address := "none"
        meta := { gpu := "NVIDIA", tz := "Asia/Calcutta", platform := "WINDOWS"
                  fontsHash := "CPU:MID_4|SCR:16:10" } } ∧
    (stableState0.setWalletAddress "0xdead").profile = some
      { master_id := "abc123", instance_id := "i1", confidence_score := "1.00"
        wallet_address := "0xdead"
        meta := { gpu := "NVIDIA", tz := "Asia/Calcutta", platform := "WINDOWS"
                  fontsHash := "CPU:MID_4|SCR:16:10" } } :=
  ⟨stableStore_setWalletAddress_spec.1 _ "0xdead" rfl, rfl,
   (stableStore_setWalletAddress_spec.2 stableState0 "0xdead" _ rfl).1⟩

/-- C4: if the persisted block flag (`localStorage` key `DH_BLACKLIST`)
reads the string `"true"`, `generateProfile` returns `null` independent of
every signal value, in both deviceHash versions; and if reading the flag
itself throws, generation proceeds normally and produces a profile. -/
theorem blacklist_gate :
    (∀ env : Env, env.blacklistRaw = .ok (some "true") →
      generateProfile12 env = none ∧ generateProfile11 env = none) ∧
    (∀ env : Env, env.blacklistRaw = .error () →
      (generateProfile12 env).isSome ∧ (generateProfile11 env).isSome) := by
  constructor <;> intro env h <;>
    simp [generateProfile12, generateProfile11, isBlacklisted, h]

/-- Witness for C4: the blocked and the throwing-storage environments. -/
theorem blacklist_gate_witness :
    envBlacklisted.blacklistRaw = .ok (some "true") ∧
    generateProfile12 envBlacklisted = none ∧
    generateProfile11 envBlacklisted = none ∧
    envStorageThrows.blacklistRaw = .error () ∧
    (generateProfile12 envStorageThrows).isSome ∧
    (generateProfile11 envStorageThrows).isSome :=
  ⟨rfl, (blacklist_gate.1 envBlacklisted rfl).1,
   (blacklist_gate.1 envBlacklisted rfl).2, rfl,
   (blacklist_gate.2 envStorageThrows rfl).1,
   (blacklist_gate.2 envStorageThrows rfl).2⟩

/-- C1: whenever `generateProfile` produces a profile, its `master_id` is
the digest of the master string obtained by joining exactly the fixed
ordered signal list — gpuVendor, cpuBucket, screenRatio, colorDepth,
touchSupport, hoverType, hdrSupport, reducedMotion, pdfViewer,
(mathFingerprint in the 12-signal version,) tzOffset, platform — with the
literal separator `"||"`, in that exact order, with no sorting or
reordering. -/
theorem generateProfile_masterString_contract :
    (∀ (env : Env) (p : DeviceProfile), generateProfile12 env = some p →
      p.master_id = sha256 env.subtle (String.intercalate "||"
        [getGPUVendor env.gpu,
         getCPUBucket env.hardwareConcurrency,
         getScreenRatio env.screenW env.screenH,
         toString env.colorDepth,
         getTouchSupport env.maxTouchPoints,
         getHoverCapability env.hoverMatches env.pointerFineMatches,
         jsStringOfBool env.hdrMatches,
         jsStringOfBool env.reducedMotionMatches,
         jsStringOfBool (getPDFViewer env.pdfViewerEnabled),
         env.mathFP,
         toString env.tzOffset,
         normalize "platform" (some env.platformRaw)])) ∧
    (∀ (env : Env) (p : DeviceProfile), generateProfile11 env = some p →
      p.master_id = sha256 env.subtle (String.intercalate "||"
        [getGPUVendor env.gpu,
         getCPUBucket env.hardwareConcurrency,
         getScreenRatio env.screenW env.screenH,
         toString env.colorDepth,
         getTouchSupport env.maxTouchPoints,
         getHoverCapability env.hoverMatches env.pointerFineMatches,
         jsStringOfBool env.hdrMatches,
         jsStringOfBool env.reducedMotionMatches,
         jsStringOfBool (getPDFViewer env.pdfViewerEnabled),
         toString env.tzOffset,
         normalize "platform" (some env.platformRaw)])) := by
  constructor
  · intro env p h
    unfold generateProfile12 at h
    split at h
    · exact absurd h (by simp)
    · simp only [Option.some.injEq] at h
      subst h
      rfl
  · intro env p h
    unfold generateProfile11 at h
    split at h
    · exact absurd h (by simp)
    · simp only [Option.some.injEq] at h
      subst h
      rfl

/-- Witness for C1 at the concrete scenario environment. -/
theorem generateProfile_masterString_contract_witness :
    generateProfile12 envScenario = some profScenario ∧
    profScenario.master_id = sha256 envScenario.subtle (String.intercalate "||"
      [getGPUVendor envScenario.gpu,
       getCPUBucket envScenario.hardwareConcurrency,
       getScreenRatio envScenario.screenW envScenario.screenH,
       toString envScenario.colorDepth,
       getTouchSupport envScenario.maxTouchPoints,
       getHoverCapability envScenario.hoverMatches envScenario.pointerFineMatches,
       jsStringOfBool envScenario.hdrMatches,
       jsStringOfBool envScenario.reducedMotionMatches,
       jsStringOfBool (getPDFViewer envScenario.pdfViewerEnabled),
       envScenario.mathFP,
       toString envScenario.tzOffset,
       normalize "platform" (some envScenario.platformRaw)]) :=
  ⟨rfl, generateProfile_masterString_contract.1 envScenario profScenario rfl⟩

/-- C8 (amended): the confidence score of a generated profile is the
constant two-decimal string `"0.95"` in both deviceHash versions,
independent of which signals resolved; no per-signal increment exists, so
the monotonicity properties hold degenerately. -/
theorem confidence_score_constant :
    (∀ (env : Env) (p : DeviceProfile), generateProfile12 env = some p →
      p.confidence_score = "0.95") ∧
    (∀ (env : Env) (p : DeviceProfile), generateProfile11 env = some p →
      p.confidence_score = "0.95") := by
  constructor <;> intro env p h
  · unfold generateProfile12 at h
    split at h
    · exact absurd h (by simp)
    · simp only [Option.some.injEq] at h
      subst h
      rfl
  · unfold generateProfile11 at h
    split at h
    · exact absurd h (by simp)
    · simp only [Option.some.injEq] at h
      subst h
      rfl

/-- Counterexample for C8 as stated: the GPU signal is a high-value signal,
yet a profile whose GPU vendor resolved (`"NVIDIA"`) and one whose GPU
extraction degraded (`"ERROR"`) carry the same confidence score `"0.95"` —
no fixed increment is added for a resolved high-value signal. -/
theorem confidence_increment_cex :
    getGPUVendor envScenario.gpu = "NVIDIA" ∧
    getGPUVendor envGpuThrows.gpu = "ERROR" ∧
    (generateProfile12 envScenario).map DeviceProfile.confidence_score
      = some "0.95" ∧
    (generateProfile12 envGpuThrows).map DeviceProfile.confidence_score
      = some "0.95" :=
  ⟨by decide, rfl, rfl, rfl⟩

/-- Witness for C8's amended theorem at the scenario environment. -/
theorem confidence_score_constant_witness :
    generateProfile12 envScenario = some profScenario ∧
    profScenario.confidence_score = "0.95" :=
  ⟨rfl, confidence_score_constant.1 envScenario profScenario rfl⟩

/-- With unique keys, `List.lookup` finds each entry of the list itself. -/
theorem lookup_self {items : List (String × JSValue)}
    (hnd : (items.map Prod.fst).Nodup) :
    ∀ kv ∈ items, items.lookup kv.1 = some kv.2 := by
  induction items with
  | nil => intro kv h; exact absurd h (List.not_mem_nil kv)
  | cons a t ih =>
    simp only [List.map_cons, List.nodup_cons] at hnd
    intro kv hkv
    rcases List.mem_cons.mp hkv with he | hm
    · subst he
      simp [List.lookup]
    · have hne : ¬ (kv.1 == a.1) = true := by
        intro hbeq
        exact hnd.1 (beq_iff_eq.mp hbeq ▸ List.mem_map_of_mem Prod.fst hm)
      simp only [List.lookup, hne]
      exact ih hnd.2 kv hm

/-- Serializing a present, defined comparison value agrees with the
current-value serialization. -/
theorem serializeCompare_some (v : JSValue) (h : v ≠ .undef) :
    serializeCompare (some v) = serializeCurrent v := by
  cases v <;> first | rfl | exact absurd rfl h

/-- C7 (amended): with no imported set parsed (`compareData === null`),
every row of both comparison tables reports no-comparison-data; comparing a
fingerprint against itself reports MATCH on every row — in the generic
table for every field (unique keys, no `undefined` values), and in the
metrics table provided `colorDepth` and `tzOffset` are nonzero (their
compare side is serialized through the falsy default `String(x || '')`).
A pasted fully-empty object, by contrast, yields DIFF rows (see the
counterexample). -/
theorem comparator_self_match_spec :
    (∀ items : List (String × JSValue),
      (compareRows items none).map Prod.snd
        = List.replicate items.length RowStatus.noData) ∧
    (∀ s : SignalData,
      metricsStatuses s none = List.replicate 11 RowStatus.noData) ∧
    (∀ items : List (String × JSValue), (items.map Prod.fst).Nodup →
      (∀ kv ∈ items, kv.2 ≠ JSValue.undef) →
      ∀ r ∈ compareRows items (some items), r.2 = RowStatus.matched) ∧
    (∀ s : SignalData, s.colorDepth ≠ 0 → s.tzOffset ≠ 0 →
      metricsStatuses s (some s.toOpt)
        = List.replicate 11 RowStatus.matched) := by
  refine ⟨?_, fun s => rfl, ?_, ?_⟩
  · intro items
    induction items with
    | nil => rfl
    | cons a t ih =>
      simp only [compareRows, List.map_cons, List.length_cons,
        List.replicate_succ] at ih ⊢
      rw [ih]
  · intro items hnd hdef r hr
    obtain ⟨kv, hkv, hr⟩ := List.mem_map.mp hr
    have hlook := lookup_self hnd kv hkv
    rw [← hr]
    simp only [hlook, serializeCompare_some kv.2 (hdef kv hkv)]
    simp
  · intro s hcd htz
    unfold metricsStatuses SignalData.toOpt metricStatus
    simp [jsNumOrEmpty, jsBoolOrEmpty, hcd, htz, List.replicate]

/-- Witness for C7's amended theorem at concrete inputs. -/
theorem comparator_self_match_spec_witness :
    (compareRows items0 none).map Prod.snd
      = List.replicate items0.length RowStatus.noData ∧
    metricsStatuses signalsIST none = List.replicate 11 RowStatus.noData ∧
    (("gpuVendor", RowStatus.matched) : String × RowStatus).2
      = RowStatus.matched ∧
    metricsStatuses signalsIST (some signalsIST.toOpt)
      = List.replicate 11 RowStatus.matched :=
  ⟨comparator_self_match_spec.1 items0,
   comparator_self_match_spec.2.1 signalsIST,
   comparator_self_match_spec.2.2.1 items0 (by decide) (by decide)
     ("gpuVendor", RowStatus.matched) (by decide),
   comparator_self_match_spec.2.2.2 signalsIST (by decide) (by decide)⟩

/-- Counterexample for C7 as stated: importing a *fully empty* object (a
parsed `{}`) makes every generic-table row report DIFF — not
no-comparison-data — and the metrics table self-compare at `tzOffset = 0`
reports DIFF on the timezone row because `String(0 || '')` is `""`. -/
theorem comparator_empty_import_cex :
    compareRows [("gpuVendor", JSValue.str "NVIDIA")] (some [])
      = [("gpuVendor", RowStatus.diff)] ∧
    RowStatus.diff ≠ RowStatus.noData ∧
    (metricsStatuses signalsUTC (some signalsUTC.toOpt))[9]?
      = some RowStatus.diff := by
  refine ⟨by decide, by decide, by decide⟩

/-- C3: `normalize` is total and pure.  For every category, `null` and `""`
yield `"UNKNOWN"`; platform strings map through the ordered rules
Win/Mac/Linux prefix ↦ WINDOWS/MAC/LINUX, iPhone‑or‑iPad substring ↦ IOS,
Android substring ↦ ANDROID, else `"OTHER"` (so `"Windows NT 10.0"` maps to
`"WINDOWS"` and `"FreeBSD"` to `"OTHER"`); timezone names go through the
static alias table (`Asia/Kolkata ↦ Asia/Calcutta`) and every unmapped
non-empty name passes through unchanged. -/
theorem normalize_spec :
    (∀ type : String,
      normalize type none = "UNKNOWN" ∧ normalize type (some "") = "UNKNOWN") ∧
    (∀ s : String, jsStartsWith s "Win" = true →
      normalize "platform" (some s) = "WINDOWS") ∧
    (∀ s : String, jsStartsWith s "Mac" = true →
      normalize "platform" (some s) = "MAC") ∧
    (∀ s : String, jsStartsWith s "Linux" = true →
      normalize "platform" (some s) = "LINUX") ∧
    (∀ s : String, jsStartsWith s "Win" = false → jsStartsWith s "Mac" = false →
      jsStartsWith s "Linux" = false →
      (strIncludes s "iPhone" || strIncludes s "iPad") = true →
      normalize "platform" (some s) = "IOS") ∧
    (∀ s : String, jsStartsWith s "Win" = false → jsStartsWith s "Mac" = false →
      jsStartsWith s "Linux" = false →
      (strIncludes s "iPhone" || strIncludes s "iPad") = false →
      strIncludes s "Android" = true →
      normalize "platform" (some s) = "ANDROID") ∧
    (∀ s : String, s ≠ "" →
      jsStartsWith s "Win" = false → jsStartsWith s "Mac" = false →
      jsStartsWith s "Linux" = false →
      (strIncludes s "iPhone" || strIncludes s "iPad") = false →
      strIncludes s "Android" = false →
      normalize "platform" (some s) = "OTHER") ∧
    normalize "platform" (some "Windows NT 10.0") = "WINDOWS" ∧
    normalize "platform" (some "FreeBSD") = "OTHER" ∧
    normalize "timezone" (some "Asia/Kolkata") = "Asia/Calcutta" ∧
    (∀ s : String, s ≠ "" → tzAlias.lookup s = none →
      normalize "timezone" (some s) = s) := by
  have hne : ∀ s : String, jsStartsWith s "Win" = true ∨ jsStartsWith s "Mac" = true ∨
      jsStartsWith s "Linux" = true → s ≠ "" := by
    intro s hs he
    subst he
    simp [jsStartsWith, listPrefixOf] at hs
  refine ⟨fun type => ⟨rfl, by simp [normalize]⟩, ?_, ?_, ?_, ?_, ?_, ?_,
    by decide, by decide, by decide, ?_⟩
  · intro s hwin
    simp [normalize, hne s (Or.inl hwin), hwin]
  · intro s hmac
    have hw : jsStartsWith s "Win" = false :=
      jsStartsWith_disjoint rfl rfl (by decide) hmac
    simp [normalize, hne s (Or.inr (Or.inl hmac)), hmac, hw]
  · intro s hlin
    have hw : jsStartsWith s "Win" = false :=
      jsStartsWith_disjoint rfl rfl (by decide) hlin
    have hm : jsStartsWith s "Mac" = false :=
      jsStartsWith_disjoint rfl rfl (by decide) hlin
    simp [normalize, hne s (Or.inr (Or.inr hlin)), hlin, hw, hm]
  · intro s h1 h2 h3 h4
    have hs : s ≠ "" := by
      intro he
      subst he
      simp [strIncludes, listContains, listPrefixOf] at h4
    simp [normalize, hs, h1, h2, h3, h4]
  · intro s h1 h2 h3 h4 h5
    have hs : s ≠ "" := by
      intro he
      subst he
      simp [strIncludes, listContains, listPrefixOf] at h5
    simp only [Bool.or_eq_false_iff] at h4
    simp [normalize, hs, h1, h2, h3, h4.1, h4.2, h5]
  · intro s hs h1 h2 h3 h4 h5
    simp only [Bool.or_eq_false_iff] at h4
    simp [normalize, hs, h1, h2, h3, h4.1, h4.2, h5]
  · intro s hs hlk
    simp [normalize, hs, hlk]

/-- Witness for C3 at concrete inputs (null input, a Windows platform
string, an aliased and an unmapped timezone). -/
theorem normalize_spec_witness :
    (normalize "timezone" none = "UNKNOWN" ∧
      normalize "timezone" (some "") = "UNKNOWN") ∧
    jsStartsWith "Windows NT 10.0" "Win" = true ∧
    normalize "platform" (some "Windows NT 10.0") = "WINDOWS" ∧
    ("Europe/Berlin" : String) ≠ "" ∧
    tzAlias.lookup "Europe/Berlin" = none ∧
    normalize "timezone" (some "Europe/Berlin") = "Europe/Berlin" :=
  ⟨normalize_spec.1 "timezone", by decide,
   normalize_spec.2.1 "Windows NT 10.0" (by decide), by decide, by decide,
   (normalize_spec.2.2.2.2.2.2.2.2.2.2) "Europe/Berlin" (by decide) (by decide)⟩

/-- C6: for positive screen dimensions, `getScreenRatio` classifies the
exact ratio `r = max(w,h)/min(w,h)` by the ascending thresholds
1.4 / 1.6 / 1.8 / 2.0 / 2.2: each bucket string is returned exactly on the
corresponding half-open interval, with `"21:9+"` above 2.2. -/
theorem getScreenRatio_buckets (w h : Nat) (hw : 0 < w) (hh : 0 < h) :
    ((getScreenRatio w h = "4:3" ↔
        screenRatioValue w h < mkRat 14 10) ∧
     (getScreenRatio w h = "3:2" ↔
        mkRat 14 10 ≤ screenRatioValue w h ∧
        screenRatioValue w h < mkRat 16 10) ∧
     (getScreenRatio w h = "16:10" ↔
        mkRat 16 10 ≤ screenRatioValue w h ∧
        screenRatioValue w h < mkRat 18 10) ∧
     (getScreenRatio w h = "16:9" ↔
        mkRat 18 10 ≤ screenRatioValue w h ∧
        screenRatioValue w h < 2) ∧
     (getScreenRatio w h = "19.5:9" ↔
        2 ≤ screenRatioValue w h ∧
        screenRatioValue w h < mkRat 22 10) ∧
     (getScreenRatio w h = "21:9+" ↔
        mkRat 22 10 ≤ screenRatioValue w h)) := by
  have hmin : ¬ (min w h = 0) := by omega
  have q1 : mkRat 14 10 = (14 : ℚ)/10 := by
    rw [Rat.mkRat_eq_divInt, Rat.divInt_eq_div]; norm_num
  have q2 : mkRat 16 10 = (16 : ℚ)/10 := by
    rw [Rat.mkRat_eq_divInt, Rat.divInt_eq_div]; norm_num
  have q3 : mkRat 18 10 = (18 : ℚ)/10 := by
    rw [Rat.mkRat_eq_divInt, Rat.divInt_eq_div]; norm_num
  have q4 : mkRat 22 10 = (22 : ℚ)/10 := by
    rw [Rat.mkRat_eq_divInt, Rat.divInt_eq_div]; norm_num
  unfold getScreenRatio
  rw [if_neg hmin, q1, q2, q3, q4]
  split_ifs with h1 h2 h3 h4 h5 <;>
    refine ⟨⟨fun hs => ?_, fun hc => ?_⟩, ⟨fun hs => ?_, fun hc => ?_⟩,
      ⟨fun hs => ?_, fun hc => ?_⟩, ⟨fun hs => ?_, fun hc => ?_⟩,
      ⟨fun hs => ?_, fun hc => ?_⟩, fun hs => ?_, fun hc => ?_⟩ <;>
    (try simp only [not_lt] at *) <;>
    first
      | rfl
      | assumption
      | exact absurd hs (by decide)
      | (constructor <;> linarith)
      | (exfalso; obtain ⟨hc1, hc2⟩ := hc; linarith)
      | (exfalso; linarith)

/-- `toInt32` always lands in the signed 32-bit range. -/
theorem toInt32_range (x : Int) : -2 ^ 31 ≤ toInt32 x ∧ toInt32 x < 2 ^ 31 := by
  unfold toInt32
  have h1 : 0 ≤ (x + 2 ^ 31) % 2 ^ 32 := Int.emod_nonneg _ (by norm_num)
  have h2 : (x + 2 ^ 31) % 2 ^ 32 < 2 ^ 32 := Int.emod_lt_of_pos _ (by norm_num)
  omega

/-- `toInt32` is invariant under shifts by multiples of `2^32`. -/
theorem toInt32_add_mul (z k : Int) : toInt32 (z + 2 ^ 32 * k) = toInt32 z := by
  unfold toInt32
  rw [show z + 2 ^ 32 * k + 2 ^ 31 = z + 2 ^ 31 + 2 ^ 32 * k by ring,
    Int.add_mul_emod_self_left]

/-- One iteration of the source's rolling-hash loop,
`toInt32 (toInt32 (h*32) - h + c)`, equals the wrapped `31·h + c`. -/
theorem fallback_step_eq (h c : Int) :
    toInt32 (toInt32 (h * 32) - h + c) = toInt32 (31 * h + c) := by
  obtain ⟨k, hk⟩ : ∃ k, toInt32 (h * 32) = h * 32 - 2 ^ 32 * k := by
    refine ⟨(h * 32 + 2 ^ 31) / 2 ^ 32, ?_⟩
    unfold toInt32
    rw [Int.emod_def]
    ring
  rw [hk, show h * 32 - 2 ^ 32 * k - h + c = 31 * h + c + 2 ^ 32 * (-k) by ring,
    toInt32_add_mul]

/-- The rolling hash stays within the signed 32-bit range, so its absolute
value is at most `2^31`. -/
theorem fallbackHash_natAbs_le (msg : String) :
    (fallbackHash msg).natAbs ≤ 2 ^ 31 := by
  have gen : ∀ (l : List Char) (h : Int), -2 ^ 31 ≤ h → h ≤ 2 ^ 31 →
      -2 ^ 31 ≤ l.foldl
          (fun hash c => toInt32 (toInt32 (hash * 32) - hash + (c.toNat : Int))) h ∧
        l.foldl
          (fun hash c => toInt32 (toInt32 (hash * 32) - hash + (c.toNat : Int))) h
          ≤ 2 ^ 31 := by
    intro l
    induction l with
    | nil => intro h h1 h2; exact ⟨h1, h2⟩
    | cons c t ih =>
      intro h h1 h2
      simp only [List.foldl_cons]
      have hr := toInt32_range (toInt32 (h * 32) - h + (c.toNat : Int))
      exact ih _ hr.1 (le_of_lt hr.2)
  have := gen msg.data 0 (by norm_num) (by norm_num)
  unfold fallbackHash
  omega

/-- Base-16 digit lists are short: below `16^k` there are at most `k`
digits. -/
theorem natToHexAux_length_le (k : Nat) :
    ∀ n : Nat, n < 16 ^ k → (natToHexAux n).length ≤ k := by
  induction k with
  | zero =>
    intro n hn
    have : n = 0 := by simpa using hn
    subst this
    simp [natToHexAux]
  | succ k ih =>
    intro n hn
    by_cases h0 : n = 0
    · subst h0; simp [natToHexAux]
    · rw [natToHexAux, dif_neg h0]
      have hdiv : n / 16 < 16 ^ k := by
        rw [Nat.div_lt_iff_lt_mul (by norm_num : 0 < 16)]
        calc n < 16 ^ (k + 1) := hn
          _ = 16 ^ k * 16 := by rw [pow_succ]
      have := ih (n / 16) hdiv
      simp only [List.length_append, List.length_singleton]
      omega

/-- The digit list of a nonzero number is nonempty. -/
theorem natToHexAux_ne_nil (n : Nat) (h0 : n ≠ 0) : natToHexAux n ≠ [] := by
  rw [natToHexAux, dif_neg h0]
  simp

/-- Every digit emitted by `hexDigitChar` below 16 is a lower-case hex
character. -/
theorem hexDigitChar_isHex (n : Nat) (hn : n < 16) :
    isHexChar (hexDigitChar n) = true := by
  interval_cases n <;> decide

/-- Every character of a base-16 digit list is a hex character. -/
theorem natToHexAux_all_hex (n : Nat) :
    ∀ ch ∈ natToHexAux n, isHexChar ch = true := by
  induction n using Nat.strong_induction_on with
  | _ n ih =>
    by_cases h0 : n = 0
    · subst h0; simp [natToHexAux]
    · rw [natToHexAux, dif_neg h0]
      intro ch hch
      rcases List.mem_append.mp hch with h | h
      · exact ih (n / 16)
          (Nat.div_lt_self (Nat.pos_of_ne_zero h0) (by norm_num)) ch h
      · rw [List.mem_singleton.mp h]
        exact hexDigitChar_isHex _ (Nat.mod_lt _ (by norm_num))

/-- `natToHex` never returns the empty string. -/
theorem natToHex_ne_empty (n : Nat) : natToHex n ≠ "" := by
  unfold natToHex
  by_cases h0 : n = 0
  · rw [if_pos h0]; decide
  · rw [if_neg h0]
    intro he
    exact natToHexAux_ne_nil n h0 (congrArg String.data he)

/-- `natToHex` output length, bounded by the base-16 magnitude. -/
theorem natToHex_length_le (n k : Nat) (hk : 0 < k) (hn : n < 16 ^ k) :
    (natToHex n).length ≤ k := by
  unfold natToHex
  by_cases h0 : n = 0
  · rw [if_pos h0]; simpa using hk
  · rw [if_neg h0]
    exact natToHexAux_length_le k n hn

/-- `natToHex` output is all hex characters. -/
theorem natToHex_isHex (n : Nat) : isHexString (natToHex n) = true := by
  unfold natToHex isHexString
  by_cases h0 : n = 0
  · rw [if_pos h0]; decide
  · rw [if_neg h0]
    simpa [List.all_eq_true] using natToHexAux_all_hex n

/-- `String.join` sums the lengths of its pieces. -/
theorem join_length (l : List String) :
    (String.join l).length = (l.map String.length).sum := by
  have gen : ∀ (xs : List String) (s : String),
      (xs.foldl (fun r x => r ++ x) s).length
        = s.length + (xs.map String.length).sum := by
    intro xs
    induction xs with
    | nil => intro s; simp
    | cons x t ih =>
      intro s
      simp only [List.foldl_cons, List.map_cons, List.sum_cons, ih,
        String.length_append]
      omega
  simpa using gen l ""

/-- `padStart2` pads any short nonempty string to exactly two characters. -/
theorem padStart2_length (s : String) (h1 : 1 ≤ s.length) (h2 : s.length ≤ 2) :
    (padStart2 s).length = 2 := by
  unfold padStart2
  by_cases hc : 2 ≤ s.length
  · rw [if_pos hc]; omega
  · rw [if_neg hc]
    have : (String.mk (List.replicate (2 - s.length) '0')).length
        = 2 - s.length := List.length_replicate _ _
    rw [String.length_append, this]
    omega

/-- C5: when the crypto API is unavailable or throws, `sha256` returns the
base-16 string of the absolute value of the 32-bit signed rolling hash
`h := toInt32 (31·h + charCode)` started at 0 over the message's
characters; the fallback output is a nonempty hex string of at most 8
digits — strictly shorter than the 64-hex-digit output of the
cryptographic branch. -/
theorem sha256_fallback_spec :
    (∀ msg : String,
      sha256 none msg =
        natToHex (msg.data.foldl
          (fun h c => toInt32 (31 * h + (c.toNat : Int))) 0).natAbs ∧
      sha256 none msg ≠ "" ∧
      (sha256 none msg).length ≤ 8 ∧
      isHexString (sha256 none msg) = true) ∧
    (∀ (digest : String → List Nat) (msg : String),
      (∀ b ∈ digest msg, b < 256) → (digest msg).length = 32 →
      (sha256 (some digest) msg).length = 64) := by
  constructor
  · intro msg
    have hfold : fallbackHash msg =
        msg.data.foldl (fun h c => toInt32 (31 * h + (c.toNat : Int))) 0 := by
      unfold fallbackHash
      congr 1
      funext h c
      exact fallback_step_eq h (c.toNat : Int)
    refine ⟨?_, ?_, ?_, ?_⟩
    · show natToHex (fallbackHash msg).natAbs = _
      rw [hfold]
    · exact natToHex_ne_empty _
    · refine natToHex_length_le _ 8 (by norm_num) ?_
      have := fallbackHash_natAbs_le msg
      calc (fallbackHash msg).natAbs ≤ 2 ^ 31 := this
        _ < 16 ^ 8 := by norm_num
    · exact natToHex_isHex _
  · intro digest msg hb hlen
    show (String.join ((digest msg).map fun b => padStart2 (natToHex b))).length = 64
    rw [join_length, List.map_map]
    have hall : ∀ b ∈ digest msg,
        (String.length ∘ fun b => padStart2 (natToHex b)) b = 2 := by
      intro b hbm
      have h1 : 1 ≤ (natToHex b).length := by
        have := natToHex_ne_empty b
        cases hn : (natToHex b).length with
        | zero =>
          exfalso
          apply this
          cases hs : natToHex b with
          | mk l =>
            rw [hs] at hn
            simp [String.length] at hn
            simp [hn]
        | succ k => omega
      have h2 : (natToHex b).length ≤ 2 :=
        natToHex_length_le b 2 (by norm_num) (by
          calc b < 256 := hb b hbm
            _ = 16 ^ 2 := by norm_num)
      exact padStart2_length _ h1 h2
    have hmap : List.map (String.length ∘ fun b => padStart2 (natToHex b))
        (digest msg) = List.map (fun _ => (2 : Nat)) (digest msg) :=
      List.map_congr_left hall
    have hsum : ∀ l : List Nat, (List.map (fun _ => (2 : Nat)) l).sum
        = 2 * l.length := by
      intro l
      induction l with
      | nil => rfl
      | cons a t ih =>
        simp only [List.map_cons, List.sum_cons, ih, List.length_cons]
        ring
    rw [hmap, hsum, hlen]

/-- Witness for C5: the fallback at `"abc"` and the crypto branch at a
32-byte digest oracle. -/
theorem sha256_fallback_spec_witness :
    sha256 none "abc" ≠ "" ∧
    (sha256 none "abc").length ≤ 8 ∧
    (sha256 (some fun _ => List.replicate 32 0) "x").length = 64 :=
  ⟨(sha256_fallback_spec.1 "abc").2.1,
   (sha256_fallback_spec.1 "abc").2.2.1,
   sha256_fallback_spec.2 (fun _ => List.replicate 32 0) "x"
     (by decide) (by decide)⟩

/-- A string of positive length is not empty. -/
theorem ne_empty_of_length_pos {s : String} (h : 0 < s.length) : s ≠ "" := by
  intro he
  subst he
  exact absurd h (by decide)

/-- `padStart2` output always has at least two characters. -/
theorem padStart2_length_ge_two (s : String) : 2 ≤ (padStart2 s).length := by
  unfold padStart2
  by_cases hc : 2 ≤ s.length
  · rw [if_pos hc]; exact hc
  · rw [if_neg hc]
    have : (String.mk (List.replicate (2 - s.length) '0')).length
        = 2 - s.length := List.length_replicate _ _
    rw [String.length_append, this]
    omega

/-- `padStart2` only prepends hex characters. -/
theorem padStart2_hex (s : String) (h : isHexString s = true) :
    isHexString (padStart2 s) = true := by
  unfold padStart2
  by_cases hc : 2 ≤ s.length
  · rw [if_pos hc]; exact h
  · rw [if_neg hc]
    unfold isHexString at *
    rw [String.data_append, List.all_append, h, Bool.and_true]
    show (List.replicate (2 - s.length) '0').all isHexChar = true
    rw [List.all_eq_true]
    intro ch hch
    rw [List.eq_of_mem_replicate hch]
    decide

/-- Joining hex strings yields a hex string. -/
theorem join_all_hex (l : List String)
    (h : ∀ s ∈ l, isHexString s = true) :
    isHexString (String.join l) = true := by
  have gen : ∀ (xs : List String) (acc : String), isHexString acc = true →
      (∀ s ∈ xs, isHexString s = true) →
      isHexString (xs.foldl (fun r x => r ++ x) acc) = true := by
    intro xs
    induction xs with
    | nil => intro acc ha _; exact ha
    | cons x t ih =>
      intro acc ha hall
      simp only [List.foldl_cons]
      refine ih (acc ++ x) ?_ fun s hs => hall s (List.mem_cons_of_mem _ hs)
      unfold isHexString at *
      rw [String.data_append, List.all_append, ha,
        hall x (List.mem_cons_self _ _)]
      rfl
  exact gen l "" (by decide) h

/-- `sha256` always yields a nonempty hexadecimal string, provided the
crypto oracle (when present) returns 32-byte digests. -/
theorem sha256_wellformed (subtle : Option (String → List Nat))
    (h32 : ∀ f, subtle = some f → ∀ m, (f m).length = 32) (m : String) :
    sha256 subtle m ≠ "" ∧ isHexString (sha256 subtle m) = true := by
  cases subtle with
  | none => exact ⟨natToHex_ne_empty _, natToHex_isHex _⟩
  | some f =>
    have hl : (f m).length = 32 := h32 f rfl m
    constructor
    · show String.join ((f m).map fun b => padStart2 (natToHex b)) ≠ ""
      apply ne_empty_of_length_pos
      cases hfm : f m with
      | nil => rw [hfm] at hl; exact absurd hl (by decide)
      | cons b bs =>
        rw [join_length]
        simp only [List.map_cons, List.sum_cons]
        have := padStart2_length_ge_two (natToHex b)
        omega
    · show isHexString
        (String.join ((f m).map fun b => padStart2 (natToHex b))) = true
      apply join_all_hex
      intro s hs
      obtain ⟨b, _, hb⟩ := List.mem_map.mp hs
      rw [← hb]
      exact padStart2_hex _ (natToHex_isHex b)

/-- Counterexample for C2 as stated: at a 1920×1080 screen the exact ratio
16/9 ≈ 1.778 lies below the 1.8 threshold, so `getScreenRatio` returns
`"16:10"`, not the claimed `"16:9"`. -/
theorem endToEnd_screenRatio_cex :
    getScreenRatio 1920 1080 = "16:10" ∧ ("16:10" : String) ≠ "16:9" :=
  ⟨by decide, by decide⟩

/-- C2 (amended): given `hardwareConcurrency = 4`, the GPU renderer string
`"ANGLE (NVIDIA GeForce RTX 3080 Direct3D11 vs_5_0 ps_5_0)"`, screen
1920×1080, platform `"Win32"` and timezone `"Asia/Kolkata"`, the extractors
produce `cpuBucket = "MID_4"`, `gpuVendor = "NVIDIA"`,
`screenRatio = "16:10"` (the code's 1.8 threshold places the 16∶9 ratio in
the `"16:10"` bucket), `platform = "WINDOWS"`, normalized timezone
`"Asia/Calcutta"`, and every profile generated in such an environment
(under a well-formed 32-byte crypto oracle, or the fallback) carries a
non-empty hexadecimal `master_id`. -/
theorem endToEnd_scenario (env : Env)
    (hcpu : env.hardwareConcurrency = 4)
    (hgpu : env.gpu = .ctx
      { vendorParam := none
        rendererParam :=
          some "ANGLE (NVIDIA GeForce RTX 3080 Direct3D11 vs_5_0 ps_5_0)"
        debugInfo := false
        unmaskedParam := none })
    (hw : env.screenW = 1920) (hh : env.screenH = 1080)
    (hplat : env.platformRaw = "Win32") (htz : env.tzName = "Asia/Kolkata")
    (hsub : ∀ f, env.subtle = some f → ∀ m, (f m).length = 32) :
    getCPUBucket env.hardwareConcurrency = "MID_4" ∧
    getGPUVendor env.gpu = "NVIDIA" ∧
    getScreenRatio env.screenW env.screenH = "16:10" ∧
    normalize "platform" (some env.platformRaw) = "WINDOWS" ∧
    normalize "timezone" (some env.tzName) = "Asia/Calcutta" ∧
    ∀ p : DeviceProfile, generateProfile12 env = some p →
      p.master_id ≠ "" ∧ isHexString p.master_id = true := by
  refine ⟨by rw [hcpu]; decide, by rw [hgpu]; decide, by rw [hw, hh]; decide,
    by rw [hplat]; decide, by rw [htz]; decide, ?_⟩
  intro p hp
  unfold generateProfile12 at hp
  split at hp
  · exact absurd hp (by simp)
  · simp only [Option.some.injEq] at hp
    subst hp
    exact sha256_wellformed env.subtle hsub _

/-- Witness for C2 at the concrete scenario environment. -/
theorem endToEnd_scenario_witness :
    (envScenario.hardwareConcurrency = 4 ∧ envScenario.screenW = 1920 ∧
      envScenario.screenH = 1080 ∧ envScenario.platformRaw = "Win32" ∧
      envScenario.tzName = "Asia/Kolkata" ∧ envScenario.subtle = none) ∧
    getCPUBucket envScenario.hardwareConcurrency = "MID_4" ∧
    getGPUVendor envScenario.gpu = "NVIDIA" ∧
    getScreenRatio envScenario.screenW envScenario.screenH = "16:10" ∧
    normalize "platform" (some envScenario.platformRaw) = "WINDOWS" ∧
    normalize "timezone" (some envScenario.tzName) = "Asia/Calcutta" ∧
    (profScenario.master_id ≠ "" ∧ isHexString profScenario.master_id = true) := by
  have h := endToEnd_scenario envScenario rfl rfl rfl rfl rfl rfl
    (fun f hf => Option.noConfusion hf)
  exact ⟨⟨rfl, rfl, rfl, rfl, rfl, rfl⟩, h.1, h.2.1, h.2.2.1, h.2.2.2.1,
    h.2.2.2.2.1, h.2.2.2.2.2 profScenario rfl⟩

/-- Witness for C6 at the 1920×1080 screen. -/
theorem getScreenRatio_buckets_witness :
    (0 < 1920 ∧ 0 < 1080) ∧
    (getScreenRatio 1920 1080 = "16:10" ↔
      mkRat 16 10 ≤ screenRatioValue 1920 1080 ∧
      screenRatioValue 1920 1080 < mkRat 18 10) :=
  ⟨⟨by decide, by decide⟩,
   (getScreenRatio_buckets 1920 1080 (by decide) (by decide)).2.2.1⟩

end FingerprintPoc
